import Mathlib

/-!
Verification of the whisplay-im channel client
(`src/whisplay-im/whisplay_im_channel.py`).

The Python module is a thin HTTP client: a configuration dataclass
(`WhisplayIMConfig`) deriving a normalized base URL, and a channel client
(`WhisplayIMChannel`) with `poll` and `send` operations and a JSON-safety
helper `_safe_json`.  We embed the module shallowly: JSON values are an
inductive type, Python dicts are association lists, HTTP responses are a
record of status code, body text and the (possibly failing) JSON parse of
that body, and each method becomes a total Lean function.  The external
HTTP library (`requests`) is modelled at its interface: the constructed
request is returned explicitly, and `Response.raise_for_status` is
modelled by its documented behaviour (raise exactly when the status code
is in 400..599).
-/

set_option autoImplicit false

/-- A JSON value, as produced by Python's `json` module / `response.json()`.
Numbers are modelled as integers (floats play no role in this client). -/
inductive Json where
  | null
  | bool (b : Bool)
  | num (n : Int)
  | str (s : String)
  | arr (xs : List Json)
  | obj (kvs : List (String × Json))

/-- A Python `dict[str, Any]` holding JSON values: an association list in
insertion order (keys unique in every dict the program builds). -/
abbrev JDict := List (String × Json)

/-- `d.get(k)` on a Python dict: the value at the key, or `None`. -/
def dictGet (d : JDict) (k : String) : Option Json :=
  (d.find? (fun kv => kv.1 = k)).map (fun kv => kv.2)

/-- Python truthiness on a JSON value: `None`, `False`, `0`, `""`, `[]`
and `\x7b\x7d` are falsy, everything else truthy. -/
def Json.truthy : Json → Bool
  | .null => false
  | .bool b => b
  | .num n => n != 0
  | .str s => s != ""
  | .arr xs => !xs.isEmpty
  | .obj kvs => !kvs.isEmpty

/-- Truthiness of an optional value (`None` is falsy). -/
def optTruthy : Option Json → Bool
  | none => false
  | some v => v.truthy

/-- The whitespace set of Python's `str.strip()` (ASCII part):
space, tab, newline, carriage return, vertical tab, form feed. -/
def isPySpace (c : Char) : Bool :=
  c = ' ' || c = '\t' || c = '\n' || c = '\r' || c = Char.ofNat 11 || c = Char.ofNat 12

/-- Python `s.strip()`: remove leading and trailing whitespace. -/
def pyStrip (s : String) : String :=
  String.mk (((s.toList.dropWhile isPySpace).reverse.dropWhile isPySpace).reverse)

/-- Python `s.rstrip("/")`: remove trailing `/` characters. -/
def rstripSlash (s : String) : String :=
  String.mk ((s.toList.reverse.dropWhile (fun c => c = '/')).reverse)

/-- Python `s.startswith(pre)`. -/
def pyStartsWith (s pre : String) : Bool :=
  pre.toList.isPrefixOf s.toList

/-- The configuration dataclass `WhisplayIMConfig`. -/
structure WhisplayIMConfig where
  ip : String
  token : Option String := none
  wait_sec : Int := 30
  timeout_sec : Int := 35

/-- `WhisplayIMConfig.base_url`: trim the address; if it starts with
`http://` or `https://` return it with trailing slashes stripped,
otherwise prepend `http://` to the slash-stripped address. -/
def WhisplayIMConfig.base_url (c : WhisplayIMConfig) : String :=
  let ip := pyStrip c.ip
  if pyStartsWith ip "http://" || pyStartsWith ip "https://" then
    rstripSlash ip
  else
    "http://" ++ rstripSlash ip

/-- An HTTP response as seen through the `requests` interface:
`status_code`, body `text`, and the result of `response.json()`
(`none` models the `ValueError` raised on invalid JSON). -/
structure HttpResponse where
  status_code : Nat
  text : String
  json : Option Json

/-- `requests.Response.raise_for_status` raises `HTTPError` exactly when
the status code is a 4xx client error or 5xx server error. -/
def raise_for_status_raises (code : Nat) : Bool :=
  400 ≤ code && code < 600

/-- The application-layer error of the spec: status code plus body. -/
structure HttpStatusError where
  status_code : Nat
  body : String

/-- `WhisplayIMChannel._headers`: always `Content-Type: application/json`,
plus `Authorization: Bearer <token>` when the trimmed token is non-empty. -/
def WhisplayIMChannel._headers (cfg : WhisplayIMConfig) : List (String × String) :=
  let headers := [("Content-Type", "application/json")]
  let token := pyStrip (cfg.token.getD "")
  if token ≠ "" then headers ++ [("Authorization", "Bearer " ++ token)]
  else headers

/-- `WhisplayIMChannel._safe_json`: empty (trimmed) body gives the empty
dict; a body parsing to a dict is returned directly; a body parsing to a
non-dict `v` gives `\x7b"data": v\x7d`; a parse failure gives
`\x7b"text": raw body\x7d`. -/
def WhisplayIMChannel.safe_json (r : HttpResponse) : JDict :=
  if pyStrip r.text = "" then []
  else
    match r.json with
    | some (Json.obj kvs) => kvs
    | some v => [("data", v)]
    | none => [("text", Json.str r.text)]

/-- The message-extraction step of `poll` (lines 56-61): start from
`payload.get("message")`; when that is falsy and `payload.get("messages")`
is a truthy list, take the last element and, when it is a dict, its
`content` value. -/
def extractMessage (payload : JDict) : Option Json :=
  let message := dictGet payload "message"
  match dictGet payload "messages" with
  | some (Json.arr xs) =>
    if !optTruthy message && !xs.isEmpty then
      match xs.getLast? with
      | some (Json.obj kvs) => dictGet kvs "content"
      | _ => message
    else message
  | _ => message

/-- The structured result `poll` returns when a message was found:
`\x7b"text": message, "messages": messages, "raw": payload\x7d`. -/
structure PollResult where
  text : Json
  messages : Option Json
  raw : JDict

/-- The response-normalization of `poll` (lines 53-70): `None` on an
empty payload, otherwise extract the message and return `None` when it
is falsy, else the structured result. -/
def pollExtract (payload : JDict) : Option PollResult :=
  if payload.isEmpty then none
  else
    match extractMessage payload with
    | some m => if m.truthy then some ⟨m, dictGet payload "messages", payload⟩ else none
    | none => none

/-- An HTTP request as handed to `requests` (method, URL, query params,
headers, optional body, timeout). -/
structure HttpRequest where
  method : String
  url : String
  params : List (String × String)
  headers : List (String × String)
  body : Option String
  timeout : Int

/-- `WhisplayIMChannel.poll`: the GET request it issues, paired with what
it does to the server's response — raise for a 4xx/5xx status, otherwise
normalize the JSON-safe payload. -/
def WhisplayIMChannel.poll (cfg : WhisplayIMConfig) (wait_sec : Option Int)
    (resp : HttpResponse) : HttpRequest × Except HttpStatusError (Option PollResult) :=
  let wait := match wait_sec with
    | none => cfg.wait_sec
    | some w => w
  let request : HttpRequest :=
    { method := "GET"
      url := cfg.base_url ++ "/whisplay-im/poll"
      params := [("waitSec", toString wait)]
      headers := WhisplayIMChannel._headers cfg
      body := none
      timeout := cfg.timeout_sec }
  if raise_for_status_raises resp.status_code then
    (request, Except.error ⟨resp.status_code, resp.text⟩)
  else
    (request, Except.ok (pollExtract (WhisplayIMChannel.safe_json resp)))

/-- The body dict `send` builds: `\x7b"reply": reply\x7d`, plus
`"emoji": emoji` only when `emoji` is provided and truthy. -/
def sendBody (reply : String) (emoji : Option String) : JDict :=
  let body : JDict := [("reply", Json.str reply)]
  match emoji with
  | some e => if e != "" then body ++ [("emoji", Json.str e)] else body
  | none => body

/-- One hex digit (lowercase), as in Python's `\uXXXX` escapes. -/
def hexDigit (n : Nat) : Char :=
  if n < 10 then Char.ofNat (48 + n) else Char.ofNat (87 + n)

/-- Per-character string escaping of `json.dumps(..., ensure_ascii=False)`:
quote, backslash and control characters are escaped, every other
character — non-ASCII included — is kept as itself. -/
def jsonEscapeChar (c : Char) : String :=
  if c = '"' then "\\\""
  else if c = '\\' then "\\\\"
  else if c = '\n' then "\\n"
  else if c = '\t' then "\\t"
  else if c = '\r' then "\\r"
  else if c = Char.ofNat 8 then "\\b"
  else if c = Char.ofNat 12 then "\\f"
  else if c.toNat < 32 then
    String.mk ['\\', 'u', '0', '0', hexDigit (c.toNat / 16), hexDigit (c.toNat % 16)]
  else String.singleton c

/-- A JSON string literal under `ensure_ascii=False`. -/
def jsonQuote (s : String) : String :=
  "\"" ++ String.join (s.toList.map jsonEscapeChar) ++ "\""

mutual

/-- `json.dumps(v, ensure_ascii=False)` with the default separators. -/
def Json.render : Json → String
  | .null => "null"
  | .bool true => "true"
  | .bool false => "false"
  | .num n => toString n
  | .str s => jsonQuote s
  | .arr xs => "[" ++ renderArr xs ++ "]"
  | .obj kvs => "\x7b" ++ renderObj kvs ++ "\x7d"

/-- Comma-separated rendering of an array's elements. -/
def renderArr : List Json → String
  | [] => ""
  | [j] => Json.render j
  | j :: js => Json.render j ++ ", " ++ renderArr js

/-- Comma-separated rendering of an object's entries. -/
def renderObj : List (String × Json) → String
  | [] => ""
  | [(k, v)] => jsonQuote k ++ ": " ++ Json.render v
  | (k, v) :: kvs => jsonQuote k ++ ": " ++ Json.render v ++ ", " ++ renderObj kvs

end

/-- `json.dumps(body, ensure_ascii=False)` on a dict. -/
def dumps (d : JDict) : String := Json.render (Json.obj d)

/-- `WhisplayIMChannel.send`: the POST request it issues (body built by
`sendBody` and serialized by `dumps`), paired with what it does to the
server's response — raise for a 4xx/5xx status, otherwise return the
JSON-safe payload. -/
def WhisplayIMChannel.send (cfg : WhisplayIMConfig) (reply : String)
    (emoji : Option String) (resp : HttpResponse) :
    HttpRequest × Except HttpStatusError JDict :=
  let request : HttpRequest :=
    { method := "POST"
      url := cfg.base_url ++ "/whisplay-im/send"
      params := []
      headers := WhisplayIMChannel._headers cfg
      body := some (dumps (sendBody reply emoji))
      timeout := cfg.timeout_sec }
  if raise_for_status_raises resp.status_code then
    (request, Except.error ⟨resp.status_code, resp.text⟩)
  else
    (request, Except.ok (WhisplayIMChannel.safe_json resp))

/-- The mutable state of a `WhisplayIMChannel` instance.  The Python
object holds the configuration and an opaque `requests.Session`; the
session's internals are external to the program, so the embedded state
is the configuration. -/
structure ClientState where
  config : WhisplayIMConfig

/-- One client call: a `poll` or a `send`, together with the server's
response to it. -/
inductive Op where
  | poll (wait_sec : Option Int) (resp : HttpResponse)
  | send (reply : String) (emoji : Option String) (resp : HttpResponse)

/-- The outcome of one client call. -/
inductive OpResult where
  | polled (r : Except HttpStatusError (Option PollResult))
  | sent (r : Except HttpStatusError JDict)

/-- Run one call against the client state.  `poll` and `send` read
`self.config` and never assign to it, so the state passes through. -/
def ClientState.run (s : ClientState) (op : Op) : ClientState × OpResult :=
  match op with
  | .poll w resp => (s, .polled (WhisplayIMChannel.poll s.config w resp).2)
  | .send reply emoji resp => (s, .sent (WhisplayIMChannel.send s.config reply emoji resp).2)

/-- Run a sequence of calls, collecting the outcomes. -/
def ClientState.runOps (s : ClientState) : List Op → ClientState × List OpResult
  | [] => (s, [])
  | op :: ops =>
    let first := s.run op
    let rest := first.1.runOps ops
    (rest.1, first.2 :: rest.2)

/-! ## Helper lemmas -/

theorem toList_mk (l : List Char) : (String.mk l).toList = l := rfl

theorem mk_toList (s : String) : String.mk s.toList = s := by
  cases s
  rfl

theorem toList_append (s t : String) : (s ++ t).toList = s.toList ++ t.toList :=
  String.data_append s t

theorem rstripSlash_getLast_ne (s : String) :
    (rstripSlash s).toList.getLast? ≠ some '/' := by
  intro hc
  unfold rstripSlash at hc
  rw [toList_mk, List.getLast?_reverse] at hc
  have h := List.head?_dropWhile_not (fun c => c = '/') s.toList.reverse
  rw [hc] at h
  simp at h

theorem rstripSlash_eq_self {s : String} (h : s.toList.getLast? ≠ some '/') :
    rstripSlash s = s := by
  unfold rstripSlash
  have hd : s.toList.reverse.dropWhile (fun c => c = '/') = s.toList.reverse := by
    cases hrev : s.toList.reverse with
    | nil => rfl
    | cons a as =>
      have ha : a ≠ '/' := by
        intro hav
        apply h
        rw [← List.head?_reverse, hrev, hav]
        rfl
      exact List.dropWhile_cons_of_neg (by simp [ha])
  rw [hd, List.reverse_reverse, mk_toList]

theorem pyStartsWith_of_rstrip {s pre : String}
    (h : pyStartsWith (rstripSlash s) pre = true) : pyStartsWith s pre = true := by
  unfold pyStartsWith at h ⊢
  rw [List.isPrefixOf_iff_prefix] at h ⊢
  apply h.trans
  show (rstripSlash s).toList <+: s.toList
  unfold rstripSlash
  rw [toList_mk]
  have hs : s.toList.reverse.dropWhile (fun c => c = '/') <:+ s.toList.reverse :=
    List.dropWhile_suffix _
  have h2 := List.reverse_prefix.mpr hs
  rwa [List.reverse_reverse] at h2

theorem pyStartsWith_append (pre r : String) : pyStartsWith (pre ++ r) pre = true := by
  unfold pyStartsWith
  rw [List.isPrefixOf_iff_prefix, toList_append]
  exact List.prefix_append _ _

theorem toList_ne_nil {s : String} (h : s ≠ "") : s.toList ≠ [] := by
  intro hn
  apply h
  rw [← mk_toList s, hn]

theorem base_url_eq_ite (cfg : WhisplayIMConfig) :
    cfg.base_url =
      if pyStartsWith (pyStrip cfg.ip) "http://" || pyStartsWith (pyStrip cfg.ip) "https://" then
        rstripSlash (pyStrip cfg.ip)
      else "http://" ++ rstripSlash (pyStrip cfg.ip) := rfl

/-! ## Claim theorems -/

/-- C5: base-URL normalization first trims whitespace; a trimmed address
with an exact `http://` or `https://` prefix and no trailing `/` is
returned unchanged; a trimmed address without a scheme prefix becomes
`http://` prepended to the trailing-slash-stripped address; in particular
`"10.0.0.5:8080"` becomes `"http://10.0.0.5:8080"` and `"https://host/"`
becomes `"https://host"`. -/
theorem base_url_normalization (cfg : WhisplayIMConfig) :
    ((pyStartsWith (pyStrip cfg.ip) "http://" || pyStartsWith (pyStrip cfg.ip) "https://") = true →
      (pyStrip cfg.ip).toList.getLast? ≠ some '/' →
      cfg.base_url = pyStrip cfg.ip) ∧
    ((pyStartsWith (pyStrip cfg.ip) "http://" || pyStartsWith (pyStrip cfg.ip) "https://") = false →
      cfg.base_url = "http://" ++ rstripSlash (pyStrip cfg.ip)) ∧
    WhisplayIMConfig.base_url { ip := "10.0.0.5:8080" } = "http://10.0.0.5:8080" ∧
    WhisplayIMConfig.base_url { ip := "https://host/" } = "https://host" := by
  refine ⟨?_, ?_, rfl, rfl⟩
  · intro hc hl
    rw [base_url_eq_ite, if_pos hc]
    exact rstripSlash_eq_self hl
  · intro hc
    rw [base_url_eq_ite, if_neg]
    rw [hc]
    simp

/-- Witness for C5 at the concrete address `"https://host"`. -/
theorem base_url_normalization_witness :
    WhisplayIMConfig.base_url { ip := "https://host" } = "https://host" := by
  have h := (base_url_normalization { ip := "https://host" }).1 (by decide) (by decide)
  exact h

/-- C4 (amended): the derived base URL starts with `http://` or `https://`
and does not end with `/`, provided the trimmed address stripped of
trailing slashes still starts with such a scheme prefix, or the trimmed
address starts with neither prefix and is nonempty once trailing slashes
are stripped.  (Unrestricted, the claim fails: address `""` yields
`"http://"`, which ends with `/`, and address `"http://"` yields
`"http:"`, which starts with neither prefix.) -/
theorem base_url_scheme_and_no_trailing_slash (cfg : WhisplayIMConfig)
    (h : (pyStartsWith (rstripSlash (pyStrip cfg.ip)) "http://" ||
            pyStartsWith (rstripSlash (pyStrip cfg.ip)) "https://") = true ∨
         ((pyStartsWith (pyStrip cfg.ip) "http://" ||
             pyStartsWith (pyStrip cfg.ip) "https://") = false ∧
          rstripSlash (pyStrip cfg.ip) ≠ "")) :
    (pyStartsWith cfg.base_url "http://" || pyStartsWith cfg.base_url "https://") = true ∧
    cfg.base_url.toList.getLast? ≠ some '/' := by
  cases hc : pyStartsWith (pyStrip cfg.ip) "http://" || pyStartsWith (pyStrip cfg.ip) "https://" with
  | true =>
    have hb : cfg.base_url = rstripSlash (pyStrip cfg.ip) := by
      rw [base_url_eq_ite, if_pos hc]
    refine ⟨?_, ?_⟩
    · rcases h with h1 | ⟨h2, _⟩
      · rw [hb]; exact h1
      · rw [hc] at h2; cases h2
    · rw [hb]; exact rstripSlash_getLast_ne _
  | false =>
    have hb : cfg.base_url = "http://" ++ rstripSlash (pyStrip cfg.ip) := by
      rw [base_url_eq_ite, if_neg]
      rw [hc]
      simp
    have hne : rstripSlash (pyStrip cfg.ip) ≠ "" := by
      rcases h with h1 | ⟨_, h2⟩
      · exfalso
        rcases Bool.or_eq_true_iff.mp h1 with hp | hp
        · have := pyStartsWith_of_rstrip hp
          rw [this] at hc
          simp at hc
        · have := pyStartsWith_of_rstrip hp
          rw [this] at hc
          simp at hc
      · exact h2
    refine ⟨?_, ?_⟩
    · rw [hb]
      rw [pyStartsWith_append "http://" (rstripSlash (pyStrip cfg.ip))]
      simp
    · rw [hb, toList_append, List.getLast?_append]
      have hnil := toList_ne_nil hne
      have hgl := rstripSlash_getLast_ne (pyStrip cfg.ip)
      cases hL : (rstripSlash (pyStrip cfg.ip)).toList.getLast? with
      | none => exact absurd (List.getLast?_eq_none_iff.mp hL) hnil
      | some y =>
        rw [hL] at hgl
        simpa using hgl

/-- Witness for C4 (amended) at the concrete address `" 10.0.0.5:8080 "`. -/
theorem base_url_scheme_witness :
    (pyStartsWith (WhisplayIMConfig.base_url { ip := " 10.0.0.5:8080 " }) "http://" ||
       pyStartsWith (WhisplayIMConfig.base_url { ip := " 10.0.0.5:8080 " }) "https://") = true ∧
    (WhisplayIMConfig.base_url { ip := " 10.0.0.5:8080 " }).toList.getLast? ≠ some '/' :=
  base_url_scheme_and_no_trailing_slash { ip := " 10.0.0.5:8080 " }
    (Or.inr ⟨by decide, by decide⟩)

/-- C4 counterexample: the address `""` normalizes to `"http://"`, which
ends with `/`, and the address `"http://"` normalizes to `"http:"`, which
starts with neither `http://` nor `https://` — so the unrestricted
invariant of the claim is false. -/
theorem base_url_invariant_cex :
    WhisplayIMConfig.base_url { ip := "" } = "http://" ∧
    (WhisplayIMConfig.base_url { ip := "" }).toList.getLast? = some '/' ∧
    WhisplayIMConfig.base_url { ip := "http://" } = "http:" ∧
    (pyStartsWith (WhisplayIMConfig.base_url { ip := "http://" }) "http://" ||
       pyStartsWith (WhisplayIMConfig.base_url { ip := "http://" }) "https://") = false := by
  exact ⟨rfl, rfl, rfl, rfl⟩

/-- C1: the JSON-safety helper, applied to any HTTP response, is a total
function into dicts (so it always returns a mapping and never raises);
when the body trimmed of whitespace is empty it returns the empty dict;
otherwise, if the body parses to a dict it returns it unchanged, if it
parses to a non-dict value `v` it returns `[("data", v)]`, and if parsing
fails it returns `[("text", raw body)]`. -/
theorem safe_json_spec (r : HttpResponse) :
    (pyStrip r.text = "" → WhisplayIMChannel.safe_json r = []) ∧
    (pyStrip r.text ≠ "" →
      (∀ kvs, r.json = some (Json.obj kvs) → WhisplayIMChannel.safe_json r = kvs) ∧
      (∀ v, r.json = some v → (∀ kvs, v ≠ Json.obj kvs) →
        WhisplayIMChannel.safe_json r = [("data", v)]) ∧
      (r.json = none → WhisplayIMChannel.safe_json r = [("text", Json.str r.text)])) := by
  unfold WhisplayIMChannel.safe_json
  refine ⟨fun he => by rw [if_pos he], fun hne => ⟨?_, ?_, ?_⟩⟩
  · intro kvs hj
    rw [if_neg hne, hj]
  · intro v hj hv
    rw [if_neg hne, hj]
    cases v with
    | obj kvs => exact absurd rfl (hv kvs)
    | null => rfl
    | bool b => rfl
    | num n => rfl
    | str s => rfl
    | arr xs => rfl
  · intro hj
    rw [if_neg hne, hj]

/-- Witness for C1: a non-dict JSON body is wrapped under `"data"`, and a
non-JSON body is wrapped under `"text"`. -/
theorem safe_json_spec_witness :
    WhisplayIMChannel.safe_json ⟨200, "[1, 2, 3]", some (Json.arr [Json.num 1, Json.num 2, Json.num 3])⟩ =
      [("data", Json.arr [Json.num 1, Json.num 2, Json.num 3])] ∧
    WhisplayIMChannel.safe_json ⟨200, "not json", none⟩ = [("text", Json.str "not json")] := by
  constructor
  · exact ((safe_json_spec ⟨200, "[1, 2, 3]", some (Json.arr [Json.num 1, Json.num 2, Json.num 3])⟩).2
      (by decide)).2.1 (Json.arr [Json.num 1, Json.num 2, Json.num 3]) rfl
      (fun kvs h => by cases h)
  · exact ((safe_json_spec ⟨200, "not json", none⟩).2 (by decide)).2.2 rfl

/-! ## Extraction lemmas -/

theorem dictGet_isEmpty_false {d : JDict} {k : String} {v : Json}
    (h : dictGet d k = some v) : d.isEmpty = false := by
  cases d with
  | nil => simp [dictGet] at h
  | cons a as => rfl

theorem extractMessage_of_truthy {payload : JDict} {m : Json}
    (h : dictGet payload "message" = some m) (ht : m.truthy = true) :
    extractMessage payload = some m := by
  simp only [extractMessage, h]
  cases hs : dictGet payload "messages" with
  | none => rfl
  | some v => cases v <;> simp [optTruthy, ht]

theorem extractMessage_fallback {payload : JDict} {xs : List Json} {kvs : JDict}
    (hm : optTruthy (dictGet payload "message") = false)
    (hs : dictGet payload "messages" = some (Json.arr xs))
    (hl : xs.getLast? = some (Json.obj kvs)) :
    extractMessage payload = dictGet kvs "content" := by
  have hxs : xs.isEmpty = false := by
    cases xs with
    | nil => simp at hl
    | cons a as => rfl
  simp [extractMessage, hs, hm, hxs, hl]

theorem extractMessage_keep_not_dict {payload : JDict} {xs : List Json} {l : Json}
    (hs : dictGet payload "messages" = some (Json.arr xs))
    (hl : xs.getLast? = some l) (hnd : ∀ kvs, l ≠ Json.obj kvs) :
    extractMessage payload = dictGet payload "message" := by
  cases hmt : optTruthy (dictGet payload "message") with
  | true => simp [extractMessage, hs, hmt]
  | false =>
    have hxs : xs.isEmpty = false := by
      cases xs with
      | nil => simp at hl
      | cons a as => rfl
    simp only [extractMessage, hs, hmt, hxs, hl, Bool.not_false, Bool.and_self, if_true]
    cases l with
    | obj kvs => exact absurd rfl (hnd kvs)
    | null => rfl
    | bool b => rfl
    | num n => rfl
    | str s => rfl
    | arr ys => rfl

theorem extractMessage_empty_list {payload : JDict}
    (hs : dictGet payload "messages" = some (Json.arr [])) :
    extractMessage payload = dictGet payload "message" := by
  simp [extractMessage, hs]

theorem extractMessage_not_list {payload : JDict}
    (hs : ∀ xs, dictGet payload "messages" ≠ some (Json.arr xs)) :
    extractMessage payload = dictGet payload "message" := by
  unfold extractMessage
  cases hv : dictGet payload "messages" with
  | none => rfl
  | some v =>
    cases v with
    | arr xs => exact absurd hv (hs xs)
    | null => rfl
    | bool b => rfl
    | num n => rfl
    | str s => rfl
    | obj kvs => rfl

theorem pollExtract_of_extract_some {payload : JDict} {m : Json}
    (hne : payload.isEmpty = false) (he : extractMessage payload = some m)
    (ht : m.truthy = true) :
    pollExtract payload = some ⟨m, dictGet payload "messages", payload⟩ := by
  simp [pollExtract, hne, he, ht]

theorem pollExtract_none_of_falsy {payload : JDict}
    (h : optTruthy (extractMessage payload) = false) :
    pollExtract payload = none := by
  unfold pollExtract
  cases hp : payload.isEmpty with
  | true => simp
  | false =>
    cases he : extractMessage payload with
    | none => simp
    | some m =>
      rw [he] at h
      simp only [optTruthy] at h
      simp [h]

theorem poll_snd (cfg : WhisplayIMConfig) (w : Option Int) (resp : HttpResponse) :
    (WhisplayIMChannel.poll cfg w resp).2 =
      if raise_for_status_raises resp.status_code then
        Except.error ⟨resp.status_code, resp.text⟩
      else Except.ok (pollExtract (WhisplayIMChannel.safe_json resp)) := by
  unfold WhisplayIMChannel.poll
  cases hc : raise_for_status_raises resp.status_code <;> simp [hc]

theorem poll_headers (cfg : WhisplayIMConfig) (w : Option Int) (resp : HttpResponse) :
    (WhisplayIMChannel.poll cfg w resp).1.headers = WhisplayIMChannel._headers cfg := by
  unfold WhisplayIMChannel.poll
  cases hc : raise_for_status_raises resp.status_code <;> simp [hc]

theorem send_snd (cfg : WhisplayIMConfig) (reply : String) (emoji : Option String)
    (resp : HttpResponse) :
    (WhisplayIMChannel.send cfg reply emoji resp).2 =
      if raise_for_status_raises resp.status_code then
        Except.error ⟨resp.status_code, resp.text⟩
      else Except.ok (WhisplayIMChannel.safe_json resp) := by
  unfold WhisplayIMChannel.send
  cases hc : raise_for_status_raises resp.status_code <;> simp [hc]

theorem send_headers (cfg : WhisplayIMConfig) (reply : String) (emoji : Option String)
    (resp : HttpResponse) :
    (WhisplayIMChannel.send cfg reply emoji resp).1.headers = WhisplayIMChannel._headers cfg := by
  unfold WhisplayIMChannel.send
  cases hc : raise_for_status_raises resp.status_code <;> simp [hc]

theorem send_request_body (cfg : WhisplayIMConfig) (reply : String) (emoji : Option String)
    (resp : HttpResponse) :
    (WhisplayIMChannel.send cfg reply emoji resp).1.body =
      some (dumps (sendBody reply emoji)) := by
  unfold WhisplayIMChannel.send
  cases hc : raise_for_status_raises resp.status_code <;> simp [hc]

/-- C2 (amended): for every 2xx poll response payload, `poll` takes the
`message` field when it is truthy; when `message` is absent or falsy and
`messages` is a non-empty list whose last element is a mapping with a
truthy `content`, that content becomes the text (last element wins, as in
the `\x7b"messages": [...a..., ...b...]\x7d → "b"` example); when
`messages` is empty, its last element is not a mapping, the mapping
lacks `content`, or the extracted content is falsy, poll falls through
to the no-message result.  (The unamended claim read "absent" where the
code tests truthiness.) -/
theorem poll_extracts_message (payload : JDict) :
    (∀ m, dictGet payload "message" = some m → m.truthy = true →
      pollExtract payload = some ⟨m, dictGet payload "messages", payload⟩) ∧
    (optTruthy (dictGet payload "message") = false →
      (∀ xs kvs c, dictGet payload "messages" = some (Json.arr xs) →
        xs.getLast? = some (Json.obj kvs) → dictGet kvs "content" = some c →
        c.truthy = true →
        pollExtract payload = some ⟨c, dictGet payload "messages", payload⟩) ∧
      (dictGet payload "messages" = some (Json.arr []) → pollExtract payload = none) ∧
      (∀ xs l, dictGet payload "messages" = some (Json.arr xs) → xs.getLast? = some l →
        (∀ kvs, l ≠ Json.obj kvs) → pollExtract payload = none) ∧
      (∀ xs kvs, dictGet payload "messages" = some (Json.arr xs) →
        xs.getLast? = some (Json.obj kvs) → dictGet kvs "content" = none →
        pollExtract payload = none) ∧
      (∀ xs kvs c, dictGet payload "messages" = some (Json.arr xs) →
        xs.getLast? = some (Json.obj kvs) → dictGet kvs "content" = some c →
        c.truthy = false →
        pollExtract payload = none)) ∧
    pollExtract
        [("messages", Json.arr [Json.obj [("content", Json.str "a")],
                                Json.obj [("content", Json.str "b")]])] =
      some ⟨Json.str "b",
            some (Json.arr [Json.obj [("content", Json.str "a")],
                            Json.obj [("content", Json.str "b")]]),
            [("messages", Json.arr [Json.obj [("content", Json.str "a")],
                                    Json.obj [("content", Json.str "b")]])]⟩ := by
  refine ⟨?_, fun hm => ⟨?_, ?_, ?_, ?_, ?_⟩, rfl⟩
  · intro m h ht
    exact pollExtract_of_extract_some (dictGet_isEmpty_false h)
      (extractMessage_of_truthy h ht) ht
  · intro xs kvs c hs hl hc hct
    have he := extractMessage_fallback hm hs hl
    rw [hc] at he
    exact pollExtract_of_extract_some (dictGet_isEmpty_false hs) he hct
  · intro hs
    apply pollExtract_none_of_falsy
    rw [extractMessage_empty_list hs]
    exact hm
  · intro xs l hs hl hnd
    apply pollExtract_none_of_falsy
    rw [extractMessage_keep_not_dict hs hl hnd]
    exact hm
  · intro xs kvs hs hl hc
    apply pollExtract_none_of_falsy
    rw [extractMessage_fallback hm hs hl, hc]
    rfl
  · intro xs kvs c hs hl hc hcf
    apply pollExtract_none_of_falsy
    rw [extractMessage_fallback hm hs hl, hc]
    simpa [optTruthy] using hcf

/-- Witness for C2 (amended): a payload with no `message` field and one
message record yields that record's content. -/
theorem poll_extracts_message_witness :
    pollExtract [("messages", Json.arr [Json.obj [("content", Json.str "hi")]])] =
      some ⟨Json.str "hi",
            dictGet [("messages", Json.arr [Json.obj [("content", Json.str "hi")]])] "messages",
            [("messages", Json.arr [Json.obj [("content", Json.str "hi")]])]⟩ :=
  ((poll_extracts_message
      [("messages", Json.arr [Json.obj [("content", Json.str "hi")]])]).2.1 rfl).1
    [Json.obj [("content", Json.str "hi")]] [("content", Json.str "hi")] (Json.str "hi")
    rfl rfl rfl rfl

/-- C2 counterexample: in the payload
`\x7b"message": "", "messages": [\x7b"content": "x"\x7d]\x7d` the
`message` field is present (so, as stated, the claim says the fallback is
not taken and the text is `""`), yet `poll` extracts `"x"` from the
`messages` list. -/
theorem poll_extract_presence_cex :
    dictGet [("message", Json.str ""),
             ("messages", Json.arr [Json.obj [("content", Json.str "x")]])] "message" =
      some (Json.str "") ∧
    (pollExtract [("message", Json.str ""),
                  ("messages", Json.arr [Json.obj [("content", Json.str "x")]])]).map
        PollResult.text = some (Json.str "x") ∧
    Json.str "x" ≠ Json.str "" := by
  refine ⟨rfl, rfl, ?_⟩
  intro h
  injection h with h'
  exact absurd h' (by decide)

/-- C10: `poll` tests the extracted message for truthiness, not presence:
with `"message": ""` in the payload it falls back to the `messages` list
even though the field is present, and when no truthy content is found
(`\x7b"message": ""\x7d` alone, or a last element whose `content` is `""`
or `0`) it returns the absent result. -/
theorem poll_truthiness_fallback (payload : JDict)
    (h : dictGet payload "message" = some (Json.str "")) :
    (∀ xs kvs c, dictGet payload "messages" = some (Json.arr xs) →
      xs.getLast? = some (Json.obj kvs) → dictGet kvs "content" = some c →
      c.truthy = true →
      pollExtract payload = some ⟨c, dictGet payload "messages", payload⟩) ∧
    (dictGet payload "messages" = none → pollExtract payload = none) ∧
    pollExtract [("message", Json.str "")] = none ∧
    pollExtract [("message", Json.str ""),
                 ("messages", Json.arr [Json.obj [("content", Json.str "")]])] = none ∧
    pollExtract [("message", Json.str ""),
                 ("messages", Json.arr [Json.obj [("content", Json.num 0)]])] = none ∧
    pollExtract [("message", Json.str ""),
                 ("messages", Json.arr [Json.obj [("content", Json.str "x")]])] =
      some ⟨Json.str "x",
            some (Json.arr [Json.obj [("content", Json.str "x")]]),
            [("message", Json.str ""),
             ("messages", Json.arr [Json.obj [("content", Json.str "x")]])]⟩ := by
  have hm : optTruthy (dictGet payload "message") = false := by
    rw [h]
    rfl
  refine ⟨?_, ?_, rfl, rfl, rfl, rfl⟩
  · intro xs kvs c hs hl hc hct
    have he := extractMessage_fallback hm hs hl
    rw [hc] at he
    exact pollExtract_of_extract_some (dictGet_isEmpty_false h) he hct
  · intro hs
    apply pollExtract_none_of_falsy
    have hnl : ∀ xs, dictGet payload "messages" ≠ some (Json.arr xs) := by
      intro xs hx
      rw [hs] at hx
      cases hx
    rw [extractMessage_not_list hnl]
    exact hm

/-- Witness for C10 at the one-key payload `\x7b"message": ""\x7d`. -/
theorem poll_truthiness_fallback_witness :
    pollExtract [("message", Json.str "")] = none :=
  (poll_truthiness_fallback [("message", Json.str "")] rfl).2.1 rfl

/-- C3 (amended): on every 4xx/5xx HTTP status, both `poll` and `send`
fail with an `HttpStatusError` carrying the status code and response
body, and no result value is returned; in particular a 500 response
raises.  (The unamended "any non-2xx" reading fails: `raise_for_status`
does not raise on surfaced 3xx statuses such as 304.) -/
theorem http_error_on_4xx_5xx (cfg : WhisplayIMConfig) (w : Option Int) (reply : String)
    (emoji : Option String) (resp : HttpResponse)
    (h4 : 400 ≤ resp.status_code) (h6 : resp.status_code < 600) :
    (WhisplayIMChannel.poll cfg w resp).2 =
      Except.error ⟨resp.status_code, resp.text⟩ ∧
    (WhisplayIMChannel.send cfg reply emoji resp).2 =
      Except.error ⟨resp.status_code, resp.text⟩ := by
  have hr : raise_for_status_raises resp.status_code = true := by
    simp only [raise_for_status_raises, Bool.and_eq_true, decide_eq_true_eq]
    omega
  constructor
  · rw [poll_snd, hr]
    simp
  · rw [send_snd, hr]
    simp

/-- Witness for C3 (amended) at a concrete 500 response. -/
theorem http_error_witness :
    (WhisplayIMChannel.poll { ip := "host" } none ⟨500, "boom", none⟩).2 =
      Except.error ⟨500, "boom"⟩ ∧
    (WhisplayIMChannel.send { ip := "host" } "hi" none ⟨500, "boom", none⟩).2 =
      Except.error ⟨500, "boom"⟩ :=
  http_error_on_4xx_5xx { ip := "host" } none "hi" none ⟨500, "boom", none⟩
    (by decide) (by decide)

/-- C3 counterexample: 304 is not a 2xx status, yet `poll` applied to a
304 response returns a result (`Except.ok none`) instead of failing —
`raise_for_status` only raises for 4xx/5xx. -/
theorem non2xx_no_raise_cex :
    ¬ (200 ≤ (304 : Nat) ∧ (304 : Nat) < 300) ∧
    (WhisplayIMChannel.poll { ip := "host" } none ⟨304, "", none⟩).2 = Except.ok none := by
  exact ⟨by omega, rfl⟩

/-- C6: a 2xx poll response whose body is empty after trimming, or which
decodes to the empty mapping, makes `poll` return the absent result and
not an error. -/
theorem poll_empty_payload_returns_none (cfg : WhisplayIMConfig) (w : Option Int)
    (resp : HttpResponse) (h2 : 200 ≤ resp.status_code) (h3 : resp.status_code < 300)
    (h : pyStrip resp.text = "" ∨ resp.json = some (Json.obj [])) :
    (WhisplayIMChannel.poll cfg w resp).2 = Except.ok none := by
  have hr : raise_for_status_raises resp.status_code = false := by
    have hlt : ¬ (400 ≤ resp.status_code) := by omega
    simp [raise_for_status_raises, hlt]
  have hs : WhisplayIMChannel.safe_json resp = [] := by
    unfold WhisplayIMChannel.safe_json
    by_cases hc : pyStrip resp.text = ""
    · rw [if_pos hc]
    · rcases h with he | hj
      · exact absurd he hc
      · rw [if_neg hc, hj]
  rw [poll_snd, hr]
  simp [hs, pollExtract]

/-- Witness for C6 at an empty body and at a `\x7b\x7d` body. -/
theorem poll_empty_payload_witness :
    (WhisplayIMChannel.poll { ip := "host" } none ⟨200, "", none⟩).2 = Except.ok none ∧
    (WhisplayIMChannel.poll { ip := "host" } none
        ⟨204, "\x7b\x7d", some (Json.obj [])⟩).2 = Except.ok none :=
  ⟨poll_empty_payload_returns_none { ip := "host" } none ⟨200, "", none⟩
      (by decide) (by decide) (Or.inl rfl),
   poll_empty_payload_returns_none { ip := "host" } none ⟨204, "\x7b\x7d", some (Json.obj [])⟩
      (by decide) (by decide) (Or.inr rfl)⟩

/-- C7: every request issued by `poll` or `send` carries exactly the
headers built by `_headers`: `Content-Type: application/json`, plus
`Authorization: Bearer <token>` if and only if the trimmed configured
token is non-empty, and nothing else. -/
theorem headers_exact (cfg : WhisplayIMConfig) (w : Option Int) (reply : String)
    (emoji : Option String) (resp : HttpResponse) :
    (WhisplayIMChannel.poll cfg w resp).1.headers = WhisplayIMChannel._headers cfg ∧
    (WhisplayIMChannel.send cfg reply emoji resp).1.headers = WhisplayIMChannel._headers cfg ∧
    (pyStrip (cfg.token.getD "") = "" →
      WhisplayIMChannel._headers cfg = [("Content-Type", "application/json")]) ∧
    (pyStrip (cfg.token.getD "") ≠ "" →
      WhisplayIMChannel._headers cfg =
        [("Content-Type", "application/json"),
         ("Authorization", "Bearer " ++ pyStrip (cfg.token.getD ""))]) := by
  refine ⟨poll_headers cfg w resp, send_headers cfg reply emoji resp, ?_, ?_⟩
  · intro he
    simp [WhisplayIMChannel._headers, he]
  · intro hne
    simp [WhisplayIMChannel._headers, hne]

/-- Witness for C7: a padded token gains a `Bearer` header, a
whitespace-only token does not. -/
theorem headers_exact_witness :
    WhisplayIMChannel._headers { ip := "host", token := some " tok " } =
      [("Content-Type", "application/json"), ("Authorization", "Bearer tok")] ∧
    WhisplayIMChannel._headers { ip := "host", token := some "   " } =
      [("Content-Type", "application/json")] :=
  ⟨(headers_exact { ip := "host", token := some " tok " } none "r" none
      ⟨200, "", none⟩).2.2.2 (by decide),
   (headers_exact { ip := "host", token := some "   " } none "r" none
      ⟨200, "", none⟩).2.2.1 (by decide)⟩

/-- C8: `send` builds the body `\x7b"reply": reply\x7d`, adds `"emoji"`
only when the emoji is provided and non-empty, attaches the
`ensure_ascii=False` serialization of that body to the POST request, and
the serializer keeps every printable character — non-ASCII included —
unescaped, so `send("hello", "👍")` produces
`\x7b"reply": "hello", "emoji": "👍"\x7d`. -/
theorem send_body_serialization (reply : String) :
    sendBody reply none = [("reply", Json.str reply)] ∧
    sendBody reply (some "") = [("reply", Json.str reply)] ∧
    (∀ e : String, e ≠ "" →
      sendBody reply (some e) = [("reply", Json.str reply), ("emoji", Json.str e)]) ∧
    (∀ (cfg : WhisplayIMConfig) (emoji : Option String) (resp : HttpResponse),
      (WhisplayIMChannel.send cfg reply emoji resp).1.body =
        some (dumps (sendBody reply emoji))) ∧
    (∀ c : Char, 32 ≤ c.toNat → c ≠ '"' → c ≠ '\\' →
      jsonEscapeChar c = String.singleton c) ∧
    dumps (sendBody "hello" (some "👍")) =
      "\x7b\"reply\": \"hello\", \"emoji\": \"👍\"\x7d" := by
  refine ⟨rfl, rfl, ?_, ?_, ?_, rfl⟩
  · intro e he
    have hb : (e != "") = true := bne_iff_ne.mpr he
    simp [sendBody, hb]
  · intro cfg emoji resp
    exact send_request_body cfg reply emoji resp
  · intro c h32 hq hb
    have hn : c ≠ '\n' := by
      intro hc
      subst hc
      exact absurd h32 (by decide)
    have ht : c ≠ '\t' := by
      intro hc
      subst hc
      exact absurd h32 (by decide)
    have hcr : c ≠ '\r' := by
      intro hc
      subst hc
      exact absurd h32 (by decide)
    have h8 : c ≠ Char.ofNat 8 := by
      intro hc
      subst hc
      exact absurd h32 (by decide)
    have h12 : c ≠ Char.ofNat 12 := by
      intro hc
      subst hc
      exact absurd h32 (by decide)
    have hlt : ¬ c.toNat < 32 := by omega
    unfold jsonEscapeChar
    rw [if_neg hq, if_neg hb, if_neg hn, if_neg ht, if_neg hcr, if_neg h8, if_neg h12,
      if_neg hlt]

/-- Witness for C8: a non-empty emoji is added to the body. -/
theorem send_body_serialization_witness :
    sendBody "hello" (some "👍") =
      [("reply", Json.str "hello"), ("emoji", Json.str "👍")] :=
  (send_body_serialization "hello").2.2.1 "👍" (by decide)

theorem run_preserves_state (s : ClientState) (op : Op) : (s.run op).1 = s := by
  cases op <;> rfl

theorem runOps_preserves_state (s : ClientState) (ops : List Op) :
    (s.runOps ops).1 = s := by
  induction ops generalizing s with
  | nil => rfl
  | cons op ops ih =>
    show ((s.run op).1.runOps ops).1 = s
    rw [run_preserves_state]
    exact ih s

/-- C9: the configuration is never mutated after client construction —
after any sequence of `poll` and `send` calls the client state still
holds the original configuration, all fields included. -/
theorem config_immutable (cfg : WhisplayIMConfig) (ops : List Op) :
    ((ClientState.mk cfg).runOps ops).1.config = cfg := by
  rw [runOps_preserves_state]
